import Mathlib

/-!
Shallow embedding of the core logic of the `tracker` satellite-visualization
program (Rust), together with theorems checking its natural-language
specification against the code.

Conventions of the embedding:
* `f64` arithmetic is modelled exactly, over `ℚ` where the code only uses
  field operations and comparisons, and over `ℝ` for the sidereal-time
  computation (which multiplies by `π`).
* Rust saturating numeric casts (`as i32`, `as i64`) are modelled by
  truncation toward zero followed by clamping to the target range.
* Code paths that can `panic!`/`unwrap` on `Err`/`None` are modelled in the
  `RustOutcome` monad-like type: `.panic` means the process aborts.
* External collaborators (network transport, the sgp4 propagation crate,
  the filesystem cache store) enter as explicit parameters carrying the
  outcome the collaborator produced, following the interface contracts the
  code relies on.
-/

/-- Outcome of running Rust code that may abort the process: either a panic
(from `unwrap`/`expect`/failed assertion/out-of-bounds indexing) or a value. -/
inductive RustOutcome (α : Type) where
  | panic : RustOutcome α
  | ok : α → RustOutcome α
deriving DecidableEq, Repr

/-- Sequencing of possibly-panicking computations. -/
def RustOutcome.bind {α β : Type} : RustOutcome α → (α → RustOutcome β) → RustOutcome β
  | .panic, _ => .panic
  | .ok a, f => f a

/-- Truncation of a rational toward zero, the rounding used by Rust float→int
`as` casts (`⌈q⌉ = -⌊-q⌋` on the negative side). -/
def ratTrunc (q : ℚ) : ℤ := if 0 ≤ q then ⌊q⌋ else -⌊-q⌋

/-- Rust `f64 as i32`: truncate toward zero, saturating at the `i32` bounds. -/
def rustCastI32 (q : ℚ) : ℤ := max (-(2 ^ 31)) (min (2 ^ 31 - 1) (ratTrunc q))

/-- Rust `f64 as i64`: truncate toward zero, saturating at the `i64` bounds. -/
def rustCastI64 (q : ℚ) : ℤ := max (-(2 ^ 63)) (min (2 ^ 63 - 1) (ratTrunc q))

/-- One `sgp4::Elements` record, with the fields `Object::from_elements`
reads (src/object.rs:26-42).  `object_name` and `international_designator`
are `Option`al in the upstream schema and are unwrapped by the code. -/
structure Elements where
  object_name : Option String
  international_designator : Option String
  norad_id : ℕ
  epoch : ℤ
  drag_term : ℚ
  inclination : ℚ
  right_ascension : ℚ
  eccentricity : ℚ
  argument_of_perigee : ℚ
  mean_anomaly : ℚ
  mean_motion : ℚ
  revolution_number : ℕ
deriving DecidableEq, Repr

/-- Typed error of the external propagator constructor (spec §4.2/§6). -/
inductive ElementsError where
  | outOfRangeMeanMotion : ElementsError
deriving DecidableEq, Repr

/-- Opaque propagator handle derived from one element record. -/
structure Constants where
  source : Elements
deriving DecidableEq, Repr

/-- Modelled from the spec: the consumed orbital-propagator capability
(`sgp4::Constants::from_elements`, an external crate, not part of src/) is
"constructed from one element record (fallible: `ElementsError`, e.g.
non-physical mean motion)" (spec §4.2, §6).  A non-positive mean motion is
non-physical, so construction fails exactly there. -/
def Constants.from_elements (elements : Elements) : Except ElementsError Constants :=
  if 0 < elements.mean_motion then .ok ⟨elements⟩ else .error .outOfRangeMeanMotion

/-- Typed per-call failure of the external propagator (spec §4.2/§7). -/
inductive PropagationError where
  | decayed : PropagationError
  | divergent : PropagationError
deriving DecidableEq, Repr

/-- The tracked object (src/object.rs:5-23). -/
structure Object where
  name : String
  cospar_id : String
  norad_id : ℕ
  epoch : ℤ
  drag_term : ℚ
  inclination : ℚ
  right_ascension : ℚ
  eccentricity : ℚ
  argument_of_perigee : ℚ
  mean_anomaly : ℚ
  mean_motion : ℚ
  revolution_number : ℕ
  constants : Constants
deriving DecidableEq, Repr

/-- `Object::from_elements` (src/object.rs:26-42).  The code unwraps the two
optional name fields and the result of `sgp4::Constants::from_elements`, so
any failure of those is a process panic, not a typed error. -/
def Object.from_elements (elements : Elements) : RustOutcome Object :=
  match elements.object_name, elements.international_designator,
      Constants.from_elements elements with
  | some n, some c, .ok k =>
      .ok { name := n, cospar_id := c, norad_id := elements.norad_id,
            epoch := elements.epoch, drag_term := elements.drag_term,
            inclination := elements.inclination,
            right_ascension := elements.right_ascension,
            eccentricity := elements.eccentricity,
            argument_of_perigee := elements.argument_of_perigee,
            mean_anomaly := elements.mean_anomaly,
            mean_motion := elements.mean_motion,
            revolution_number := elements.revolution_number, constants := k }
  | _, _, _ => .panic

/-- `Object::orbital_period` (src/object.rs:101-104): seconds of the returned
`chrono::Duration`, i.e. `(86400.0 / mean_motion) as i64`.  (For an `Object`
that was actually constructed the divisor is positive, see
`from_elements_mean_motion_pos`.) -/
def Object.orbital_period_seconds (o : Object) : ℤ :=
  rustCastI64 (86400 / o.mean_motion)

/-- `chrono::Duration::num_minutes`: whole minutes, truncating toward zero. -/
def durationNumMinutes (seconds : ℤ) : ℤ := seconds.tdiv 60

/-- Minutes of `Object::orbital_period` as used by the trajectory loops. -/
def Object.orbital_period_minutes (o : Object) : ℤ :=
  durationNumMinutes o.orbital_period_seconds

/-- The integer-minute offsets at which `WorldMap::render_top_layer`
(src/widgets/world_map.rs:74-79) queries the propagator:
`for minutes in 1..selected.orbital_period().num_minutes()`. -/
def Object.trajectory_sample_minutes (o : Object) : List ℤ :=
  (List.range (o.orbital_period_minutes - 1).toNat).map (fun k : ℕ => (1 : ℤ) + (k : ℤ))

/-- Result of one `Satellite::get_elements` call (src/satellite.rs:54-86):
what was returned, what the cache file holds afterwards, and how many
network fetches (`fetch_elements` calls) were made. -/
structure GetElementsRun where
  result : Option (List Elements)
  cacheAfter : Option (List Elements)
  fetchCalls : ℕ
deriving DecidableEq, Repr

/-- `Satellite::get_elements` (src/satellite.rs:54-86) as a function of the
ambient world: `cache` is the parsed content of the per-group cache file (or
`none` when the file does not exist), `ageSeconds` its age, and `fetch` the
outcome a `fetch_elements` call would produce.  The code branches:
no cache → fetch (failure returns `None`, success writes the file, which is
then fresh); cache with `age > 2h` → refetch (failure falls back to the
existing file, success overwrites it); otherwise → read the cached file. -/
def Satellite.get_elements (cache : Option (List Elements)) (ageSeconds : ℚ)
    (fetch : RustOutcome (Option (List Elements))) : RustOutcome GetElementsRun :=
  match cache with
  | none =>
    match fetch with
    | .panic => .panic
    | .ok none => .ok ⟨none, none, 1⟩
    | .ok (some es) => .ok ⟨some es, some es, 1⟩
  | some c =>
    if 2 * 60 * 60 < ageSeconds then
      match fetch with
      | .panic => .panic
      | .ok none => .ok ⟨some c, some c, 1⟩
      | .ok (some es) => .ok ⟨some es, some es, 1⟩
    else
      .ok ⟨some c, some c, 0⟩

/-- `Satellite::fetch_elements` (src/satellite.rs:122-140) as a function of
the transport outcome and of how the payload parses: a transport error is
turned into `None` by `.ok()`, but a successful response whose body fails to
parse hits `.expect("failed to parse JSON from celestrak.org")`, a panic. -/
def Satellite.fetch_elements (transportOk : Bool)
    (parsedBody : Option (List Elements)) : RustOutcome (Option (List Elements)) :=
  if transportOk then
    match parsedBody with
    | some es => .ok (some es)
    | none => .panic
  else
    .ok none

/-- The satellite-drawing loop of `WorldMap::render_bottom_layer`
(src/widgets/world_map.rs:48-58): each object's position comes from
`object.predict(Utc::now()).unwrap()`, so one propagation failure panics. -/
def render_bottom_positions :
    List (Except PropagationError (ℚ × ℚ)) → RustOutcome (List (ℚ × ℚ))
  | [] => .ok []
  | (.error _) :: _ => .panic
  | (.ok p) :: rest =>
    match render_bottom_positions rest with
    | .panic => .panic
    | .ok ps => .ok (p :: ps)

/-- One two-point polyline segment drawn on the map, as
`ratatui::canvas::Line::new(x1, y1, x2, y2, _)`. -/
structure Segment where
  x1 : ℚ
  y1 : ℚ
  x2 : ℚ
  y2 : ℚ
deriving DecidableEq, Repr

/-- The longitude extent of a segment. -/
def Segment.lonSpan (s : Segment) : ℚ := |s.x1 - s.x2|

/-- The body of the windows(2) trajectory loop of `WorldMap::render_top_layer`
(src/widgets/world_map.rs:82-97) for one consecutive sample pair:
an antimeridian-crossing pair (`|x1 - x2| ≥ 180`) is split into two segments
clamped at `x_edge = if x1 > 0 { 180 } else { -180 }`; a latitude jump
(`|y1 - y2| ≥ 90`) drops the segment; otherwise the pair is drawn directly. -/
def trajectory_pair_segments (p1 p2 : ℚ × ℚ) : List Segment :=
  if 180 ≤ |p1.1 - p2.1| then
    let xe : ℚ := if 0 < p1.1 then 180 else -180
    [⟨p1.1, p1.2, xe, p2.2⟩, ⟨-xe, p1.2, p2.1, p2.2⟩]
  else if 90 ≤ |p1.2 - p2.2| then
    []
  else
    [⟨p1.1, p1.2, p2.1, p2.2⟩]

/-- The whole `for window in points.windows(2)` loop
(src/widgets/world_map.rs:82-97): segments of all consecutive pairs. -/
def render_trajectory : List (ℚ × ℚ) → List Segment
  | p1 :: p2 :: rest => trajectory_pair_segments p1 p2 ++ render_trajectory (p2 :: rest)
  | _ => []

/-- The integer comparison key of `get_nearest_object`
(src/widgets/world_map.rs:169-174): planar squared distance in degree space,
scaled by 1000 and cast to `i32`. -/
def nearestKey (lon lat : ℚ) (state : ℚ × ℚ) : ℤ :=
  rustCastI32 (((state.1 - lon) * (state.1 - lon)
      + (state.2 - lat) * (state.2 - lat)) * 1000)

/-- Exact squared degree-space distance (before scaling/casting), used to
state claims about the key. -/
def sqDist (lon lat : ℚ) (state : ℚ × ℚ) : ℚ :=
  (state.1 - lon) * (state.1 - lon) + (state.2 - lat) * (state.2 - lat)

/-- Rust's `Iterator::min_by_key` fold: the accumulator is replaced only
when a later element's key is strictly smaller, so the first minimum wins. -/
def rustMinByKeyFold {α : Type} (key : α → ℤ) (x : α) (xs : List α) : α :=
  xs.foldl (fun acc y => if key y < key acc then y else acc) x

/-- Rust's `Iterator::min_by_key`: `None` on an empty iterator, otherwise the
first element attaining the minimal key. -/
def rustMinByKey {α : Type} (key : α → ℤ) : List α → Option α
  | [] => none
  | x :: xs => some (rustMinByKeyFold key x xs)

/-- `get_nearest_object` (src/widgets/world_map.rs:163-177):
`objects.iter().enumerate().min_by_key(key).map(|(index, _)| index)`, where
each object's current state is its predicted (longitude, latitude). -/
def get_nearest_object (states : List (ℚ × ℚ)) (lon lat : ℚ) : Option ℕ :=
  (rustMinByKey (fun p => nearestKey lon lat p.2) states.enum).map (fun p => p.1)

/-- One entry of the satellite group list (src/widgets/satellites.rs:107-110);
`satellite` is the group's identity. -/
structure Item where
  satellite : ℕ
  selected : Bool
deriving DecidableEq, Repr

/-- `Object::from_elements` mapped over one fetched element array, as in
`objects.extend(elements.into_iter().map(Object::from_elements))`: the first
construction panic aborts. -/
def objects_from_elements : List Elements → RustOutcome (List Object)
  | [] => .ok []
  | e :: rest =>
    match Object.from_elements e, objects_from_elements rest with
    | .ok o, .ok os => .ok (o :: os)
    | _, _ => .panic

/-- `SatellitesState::update_objects` (src/widgets/satellites.rs:32-45) over
the item list paired with the `get_elements` outcome the environment produces
for each item: unselected items are skipped, a `Some` result extends the
object list, a `None` result deselects the item. -/
def update_objects : List (Item × Option (List Elements)) → RustOutcome (List Item × List Object)
  | [] => .ok ([], [])
  | (it, f) :: rest =>
    if it.selected then
      match f with
      | some es =>
        match objects_from_elements es, update_objects rest with
        | .ok os, .ok (its, objs) => .ok (it :: its, os ++ objs)
        | _, _ => .panic
      | none =>
        match update_objects rest with
        | .ok (its, objs) => .ok ({ it with selected := false } :: its, objs)
        | .panic => .panic
    else
      match update_objects rest with
      | .ok (its, objs) => .ok (it :: its, objs)
      | .panic => .panic

/-- The interaction-relevant application state: the satellite list items, the
tracked-object collection, and the world-map selection/hover indices
(src/app.rs:23-32, src/widgets/world_map.rs:24-29). -/
structure AppState where
  items : List Item
  objects : List Object
  selected_object : Option ℕ
  hovered_object : Option ℕ
deriving DecidableEq, Repr

/-- The `MouseEventKind::Down(MouseButton::Left)` branch of
`satellites::handle_mouse_events` (src/widgets/satellites.rs:129-137):
toggle the clicked item, reset `selected_object` and `hovered_object` to
`None`, and rebuild the objects via `update_objects`.  Indexing `items` out
of bounds would be a Rust panic. -/
def satellites_toggle_click (s : AppState) (index : ℕ)
    (fetches : List (Option (List Elements))) : RustOutcome AppState :=
  if h : index < s.items.length then
    let it := s.items.get ⟨index, h⟩
    let items1 := s.items.set index { it with selected := !it.selected }
    match update_objects (items1.zip fetches) with
    | .panic => .panic
    | .ok (items2, objs) =>
      .ok { items := items2, objects := objs,
            selected_object := none, hovered_object := none }
  else .panic

/-- `world_map::handle_mouse_events`, `Down(Left)` inside the map area
(src/widgets/world_map.rs:147-158): both `selected_object` and (afterwards)
`hovered_object` are set to the nearest-object index.  `predictAt` supplies
each object's predicted current state. -/
def world_map_left_click (s : AppState) (lon lat : ℚ)
    (predictAt : Object → ℚ × ℚ) : AppState :=
  { s with selected_object := get_nearest_object (s.objects.map predictAt) lon lat,
           hovered_object := get_nearest_object (s.objects.map predictAt) lon lat }

/-- `world_map::handle_mouse_events`, `Down(Right)` inside the map area:
clear the selection, then set the hover to the nearest-object index. -/
def world_map_right_click (s : AppState) (lon lat : ℚ)
    (predictAt : Object → ℚ × ℚ) : AppState :=
  { s with selected_object := none,
           hovered_object := get_nearest_object (s.objects.map predictAt) lon lat }

/-- `world_map::handle_mouse_events` when the pointer is outside the map
area (src/widgets/world_map.rs:138-142): the hover is cleared. -/
def world_map_mouse_outside (s : AppState) : AppState :=
  { s with hovered_object := none }

/-- Modelled from the spec: `SatellitesState::refresh_objects`, invoked by
`App::update` (src/app.rs:99-107), is absent from src/.  Per spec §5 a full
refresh re-derives the tracked objects from newly fetched elements and swaps
the whole collection; the spec assigns it no effect on the selection or hover
state, so the rebuild is the same re-derivation as `update_objects` with the
selection and hover indices left untouched. -/
def refresh_objects (s : AppState)
    (fetches : List (Option (List Elements))) : RustOutcome AppState :=
  match update_objects (s.items.zip fetches) with
  | .panic => .panic
  | .ok (items2, objs) => .ok { s with items := items2, objects := objs }

/-- The object lookup of `WorldMap::render_top_layer`
(src/widgets/world_map.rs:66-71 and 106-108):
`&self.satellites_state.objects[selected_object_index]` (or the hovered
index), a Rust panic when the stored index is out of bounds. -/
def render_top_layer_lookup (s : AppState) : RustOutcome (Option Object) :=
  match s.selected_object with
  | some i =>
    if h : i < s.objects.length then .ok (some (s.objects.get ⟨i, h⟩)) else .panic
  | none =>
    match s.hovered_object with
    | some i =>
      if h : i < s.objects.length then .ok (some (s.objects.get ⟨i, h⟩)) else .panic
    | none => .ok none

/-- The index invariant of claim C9: any stored selection or hover index is
a valid index into the tracked-object collection. -/
def index_invariant (s : AppState) : Prop :=
  (∀ i, s.selected_object = some i → i < s.objects.length) ∧
  (∀ i, s.hovered_object = some i → i < s.objects.length)

/-- Truncation toward zero on the reals (`f64` `trunc`, the rounding of
Rust's `%` on floats). -/
noncomputable def realTrunc (x : ℝ) : ℤ := if 0 ≤ x then ⌊x⌋ else -⌊-x⌋

/-- Rust `f64::%` (`fmod`): remainder of truncating division. -/
noncomputable def rustFmod (x y : ℝ) : ℝ := x - y * (realTrunc (x / y) : ℝ)

/-- Rust `f64::rem_euclid`: `let r = self % rhs; if r < 0 { r + rhs.abs() }
else { r }`. -/
noncomputable def rustRemEuclid (x y : ℝ) : ℝ :=
  if rustFmod x y < 0 then rustFmod x y + |y| else rustFmod x y

/-- `f64::to_radians`. -/
noncomputable def toRadians (d : ℝ) : ℝ := d * (Real.pi / 180)

/-- `gmst_from_julian_days` (src/object.rs:183-205) in exact real arithmetic:
the GMST polynomial in degrees, reduced with `% 360.0`, converted to radians
and normalized with `rem_euclid(2.0 * PI)`. -/
noncomputable def gmst_from_julian_days (julian_days : ℝ) : ℝ :=
  let t := (julian_days - 2451545) / 36525
  let gmst := 280.46061837 + 360.98564736629 * (julian_days - 2451545)
    + 0.000387933 * t ^ 2 + (-1 / 38710000) * t ^ 3
  rustRemEuclid (toRadians (rustFmod gmst 360)) (2 * Real.pi)

/-- A well-formed element record (mean motion 16 rev/day, i.e. a 90-minute
period), used as concrete input. -/
def eA : Elements :=
  { object_name := some ("SAT A"), international_designator := some ("2020-001A"),
    norad_id := 1, epoch := 0, drag_term := 0, inclination := 0,
    right_ascension := 0, eccentricity := 0, argument_of_perigee := 0,
    mean_anomaly := 0, mean_motion := 16, revolution_number := 0 }

/-- A second well-formed element record. -/
def eB : Elements :=
  { object_name := some ("SAT B"), international_designator := some ("2020-002A"),
    norad_id := 2, epoch := 0, drag_term := 0, inclination := 0,
    right_ascension := 0, eccentricity := 0, argument_of_perigee := 0,
    mean_anomaly := 0, mean_motion := 16, revolution_number := 0 }

/-- An element record with mean motion 0 (claim C2's failing input). -/
def eZero : Elements :=
  { object_name := some ("TEMPSAT 1"), international_designator := some ("1965-065E"),
    norad_id := 1512, epoch := 0, drag_term := 0, inclination := 90,
    right_ascension := 0, eccentricity := 0, argument_of_perigee := 0,
    mean_anomaly := 0, mean_motion := 0, revolution_number := 0 }

/-- The object `Object::from_elements` builds from `eA`. -/
def oA : Object :=
  { name := "SAT A", cospar_id := "2020-001A", norad_id := 1, epoch := 0,
    drag_term := 0, inclination := 0, right_ascension := 0, eccentricity := 0,
    argument_of_perigee := 0, mean_anomaly := 0, mean_motion := 16,
    revolution_number := 0, constants := ⟨eA⟩ }

/-- The object `Object::from_elements` builds from `eB`. -/
def oB : Object :=
  { name := "SAT B", cospar_id := "2020-002A", norad_id := 2, epoch := 0,
    drag_term := 0, inclination := 0, right_ascension := 0, eccentricity := 0,
    argument_of_perigee := 0, mean_anomaly := 0, mean_motion := 16,
    revolution_number := 0, constants := ⟨eB⟩ }

/-- A concrete prediction environment for the C9 trace: the object with
catalog number 1 sits at (10°, 20°), every other at (100°, 100°). -/
def c9_predict : Object → ℚ × ℚ :=
  fun o => if o.norad_id = 1 then (10, 20) else (100, 100)

/-- Initial application state: one unselected group, no objects, nothing
selected or hovered (src/widgets/satellites.rs:48-58, world_map.rs:24-29). -/
def c9_s0 : AppState :=
  { items := [⟨0, false⟩], objects := [], selected_object := none,
    hovered_object := none }

/-- The state reached by the C9 trace: the refresh shrank the collection to
one object while selection and hover still hold index 1. -/
def c9_bad : AppState :=
  { items := [⟨0, true⟩], objects := [oA], selected_object := some 1,
    hovered_object := some 1 }

/-- The C9 trace: toggle the group on (the fetch yields two element records),
left-click the map on the second object, then a periodic refresh whose fetch
yields only one record. -/
def c9_run : RustOutcome AppState :=
  (satellites_toggle_click c9_s0 0 [some [eA, eB]]).bind fun s1 =>
    refresh_objects (world_map_left_click s1 100 100 c9_predict) [some [eA]]

/-- C4 counterexample state: squared distance 13/10000 from the origin. -/
def c4A : ℚ × ℚ := (2/100, 3/100)

/-- C4 counterexample state: squared distance 10/10000 = 1/1000 from the
origin (the minimum, attained twice in the counterexample list). -/
def c4B : ℚ × ℚ := (1/100, 3/100)

/-- C10 counterexample state: squared distance 0.0009 from the origin. -/
def c10A : ℚ × ℚ := (3/100, 0)

/-- C10 counterexample state: squared distance 0.001125 from the origin —
within 0.001 of `c10A`, but in the next quantization cell. -/
def c10B : ℚ × ℚ := (3/100, 3/200)

/-- App state after toggling the group on with a two-element fetch. -/
def c9_t1 : AppState :=
  { items := [⟨0, true⟩], objects := [oA, oB], selected_object := none,
    hovered_object := none }

/-- App state with a single tracked object and nothing selected. -/
def c9_t2 : AppState :=
  { items := [⟨0, true⟩], objects := [oA], selected_object := none,
    hovered_object := none }

/-- App state after left-clicking near the second of the two objects. -/
def c9_t3 : AppState :=
  { items := [⟨0, true⟩], objects := [oA, oB], selected_object := some 1,
    hovered_object := some 1 }

/-- An `Object` constructed by `from_elements` always has positive mean
motion: the fallible propagator construction was unwrapped successfully. -/
theorem from_elements_mean_motion_pos (e : Elements) (o : Object)
    (h : Object.from_elements e = .ok o) : 0 < o.mean_motion := by
  unfold Object.from_elements at h
  rcases hn : e.object_name with _ | n <;> rw [hn] at h
  · exact absurd h (by simp)
  rcases hi : e.international_designator with _ | c <;> rw [hi] at h
  · exact absurd h (by simp)
  rcases hc : Constants.from_elements e with err | k <;> rw [hc] at h
  · exact absurd h (by simp)
  have hmm : 0 < e.mean_motion := by
    unfold Constants.from_elements at hc
    by_contra hle
    rw [if_neg hle] at hc
    exact Except.noConfusion hc
  have ho : o.mean_motion = e.mean_motion := by
    injection h with h2
    rw [← h2]
  rw [ho]; exact hmm

/-- `Object::from_elements` panics on a record with zero mean motion: the
typed `ElementsError` of the propagator constructor is unwrapped. -/
theorem from_elements_zero_mean_motion (e : Elements) (h : e.mean_motion = 0) :
    Object.from_elements e = .panic := by
  have hc : Constants.from_elements e = .error .outOfRangeMeanMotion := by
    unfold Constants.from_elements
    rw [h]
    norm_num
  unfold Object.from_elements
  rw [hc]
  cases e.object_name <;> cases e.international_designator <;> rfl

/-- Stale-cache fallback of `get_elements`: cache present, expired, refetch
returned `None` → the cached data is returned and kept. -/
theorem get_elements_stale_fallback (c : List Elements) (age : ℚ)
    (h : 2 * 60 * 60 < age) :
    Satellite.get_elements (some c) age (.ok none) = .ok ⟨some c, some c, 1⟩ := by
  simp only [Satellite.get_elements]
  rw [if_pos h]

/-- Fresh-cache read of `get_elements`: cache present and not expired
(`age ≤ 2h`, the code tests `age > 2h`) → cached data, no fetch at all. -/
theorem get_elements_fresh (c : List Elements) (age : ℚ)
    (fetch : RustOutcome (Option (List Elements))) (h : age ≤ 2 * 60 * 60) :
    Satellite.get_elements (some c) age fetch = .ok ⟨some c, some c, 0⟩ := by
  simp only [Satellite.get_elements]
  rw [if_neg (not_lt.mpr h)]

/-- C1, counterexample.  The claim says a call at age ≥ 2 hours attempts a
refetch; at an age of exactly 2 hours (7200 s) the code's strict test
`age > Duration::from_secs(2*60*60)` is false, so no fetch happens and the
old cached data is returned even though a refetch would have succeeded with
different data. -/
theorem c1_threshold_counterexample :
    2 * 60 * 60 ≤ (7200 : ℚ) ∧
    Satellite.get_elements (some [eA]) 7200 (.ok (some [eB]))
      = .ok ⟨some [eA], some [eA], 0⟩ := by
  constructor
  · norm_num
  · exact get_elements_fresh [eA] 7200 _ (by norm_num)

/-- C1 (amended): the element cache state machine per group key, with the
staleness threshold strict: no prior cache + successful fetch persists and
returns the fetched array; any call with age ≤ 2 hours returns the cached
data with no fetch; a call with age strictly greater than 2 hours attempts a
refetch, and a failed refetch returns (and keeps) the existing cached data
unmodified while a successful one replaces it. -/
theorem c1_cache_state_machine :
    (∀ (age : ℚ) (f : List Elements),
        Satellite.get_elements none age (.ok (some f)) = .ok ⟨some f, some f, 1⟩) ∧
    (∀ (c : List Elements) (age : ℚ) (fetch : RustOutcome (Option (List Elements))),
        age ≤ 2 * 60 * 60 →
        Satellite.get_elements (some c) age fetch = .ok ⟨some c, some c, 0⟩) ∧
    (∀ (c : List Elements) (age : ℚ), 2 * 60 * 60 < age →
        Satellite.get_elements (some c) age (.ok none) = .ok ⟨some c, some c, 1⟩) ∧
    (∀ (c : List Elements) (age : ℚ) (f : List Elements), 2 * 60 * 60 < age →
        Satellite.get_elements (some c) age (.ok (some f)) = .ok ⟨some f, some f, 1⟩) := by
  refine ⟨fun age f => rfl, get_elements_fresh, get_elements_stale_fallback, ?_⟩
  intro c age f h
  simp only [Satellite.get_elements]
  rw [if_pos h]

/-- C1 witness: the amended state machine evaluated on concrete runs. -/
theorem c1_cache_state_machine_witness :
    Satellite.get_elements none 0 (.ok (some [eB])) = .ok ⟨some [eB], some [eB], 1⟩ ∧
    Satellite.get_elements (some [eA]) 3600 (.ok (some [eB])) = .ok ⟨some [eA], some [eA], 0⟩ ∧
    Satellite.get_elements (some [eA]) 7201 (.ok none) = .ok ⟨some [eA], some [eA], 1⟩ ∧
    Satellite.get_elements (some [eA]) 7201 (.ok (some [eB])) = .ok ⟨some [eB], some [eB], 1⟩ :=
  ⟨c1_cache_state_machine.1 0 [eB],
   c1_cache_state_machine.2.1 [eA] 3600 _ (by norm_num),
   c1_cache_state_machine.2.2.1 [eA] 7201 (by norm_num),
   c1_cache_state_machine.2.2.2 [eA] 7201 [eB] (by norm_num)⟩

/-- C2, counterexample.  On an element record with mean motion 0 the typed
construction failure is `unwrap`ped by `Object::from_elements`
(src/object.rs:40), so the process panics; `update_objects` aborts instead of
dropping the object and continuing. -/
theorem c2_zero_mean_motion_counterexample :
    eZero.mean_motion = 0 ∧
    Object.from_elements eZero = .panic ∧
    update_objects [(⟨0, true⟩, some [eZero])] = .panic := by
  refine ⟨rfl, ?_, ?_⟩
  · exact from_elements_zero_mean_motion eZero rfl
  · have h : Object.from_elements eZero = .panic :=
      from_elements_zero_mean_motion eZero rfl
    simp only [update_objects, objects_from_elements, h]
    simp

/-- C2 (amended): constructing a tracked object from an element record with
mean motion = 0 does fail in the typed propagator construction, but
`Object::from_elements` unwraps that error, so the process panics — the
object is not dropped and the update of the active set aborts.
Consequently every successfully constructed object has positive mean motion,
so the division by mean motion in the orbital-period computation is indeed
never reached for such a record. -/
theorem c2_zero_mean_motion :
    (∀ e : Elements, e.mean_motion = 0 → Object.from_elements e = .panic) ∧
    (∀ (e : Elements) (o : Object), Object.from_elements e = .ok o →
        0 < o.mean_motion) ∧
    (∀ (it : Item) (e : Elements) (rest : List (Item × Option (List Elements))),
        it.selected = true → e.mean_motion = 0 →
        update_objects ((it, some [e]) :: rest) = .panic) := by
  refine ⟨from_elements_zero_mean_motion, from_elements_mean_motion_pos, ?_⟩
  intro it e rest hsel h
  have hp : Object.from_elements e = .panic := from_elements_zero_mean_motion e h
  simp only [update_objects, objects_from_elements, hsel, if_true, hp]

/-- C2 witness: the amended statement evaluated at `eZero` and at `eA`. -/
theorem c2_zero_mean_motion_witness :
    Object.from_elements eZero = .panic ∧
    0 < oA.mean_motion ∧
    update_objects [(⟨0, true⟩, some [eZero])] = .panic :=
  ⟨c2_zero_mean_motion.1 eZero rfl,
   c2_zero_mean_motion.2.1 eA oA (by
     simp only [Object.from_elements, Constants.from_elements, eA]
     norm_num
     rfl),
   c2_zero_mean_motion.2.2 ⟨0, true⟩ eZero [] rfl rfl⟩

/-- Any propagation error anywhere in the object list panics the
bottom-layer render loop (each position is `predict(now).unwrap()`). -/
theorem render_bottom_positions_error (pre post : List (Except PropagationError (ℚ × ℚ)))
    (err : PropagationError) :
    render_bottom_positions (pre ++ .error err :: post) = .panic := by
  induction pre with
  | nil => rfl
  | cons x rest ih =>
    cases x with
    | error e => rfl
    | ok p =>
      simp only [List.cons_append, render_bottom_positions, List.append_eq, ih]

/-- C3, counterexample.  Two externally triggered failure conditions do
terminate the process: a successful HTTP response whose body fails to parse
hits `expect` in `fetch_elements`, and a propagation failure (decayed orbit)
at render time hits `unwrap` in `render_bottom_layer`. -/
theorem c3_external_failure_counterexample :
    Satellite.fetch_elements true none = .panic ∧
    render_bottom_positions [.error .decayed] = .panic := by
  exact ⟨rfl, rfl⟩

/-- C3 (amended): a transport failure of the element fetch is handled as a
typed absence (`None`), a missing cache with a failed fetch surfaces `None`
without panicking, and a stale cache with a failed refetch degrades to the
cached data; but a malformed payload from a successful fetch and a
decayed/divergent orbit at propagation time are `unwrap`ped and panic the
process. -/
theorem c3_external_failure_handling :
    (∀ parsedBody, Satellite.fetch_elements false parsedBody = .ok none) ∧
    (∀ age : ℚ, Satellite.get_elements none age (.ok none) = .ok ⟨none, none, 1⟩) ∧
    (∀ (c : List Elements) (age : ℚ), 2 * 60 * 60 < age →
        Satellite.get_elements (some c) age (.ok none) = .ok ⟨some c, some c, 1⟩) ∧
    Satellite.fetch_elements true none = .panic ∧
    (∀ (pre post : List (Except PropagationError (ℚ × ℚ))) (err : PropagationError),
        render_bottom_positions (pre ++ .error err :: post) = .panic) := by
  exact ⟨fun _ => rfl, fun _ => rfl, get_elements_stale_fallback, rfl,
    render_bottom_positions_error⟩

/-- C3 witness: the amended statement evaluated on concrete runs. -/
theorem c3_external_failure_handling_witness :
    Satellite.fetch_elements false (some [eA]) = .ok none ∧
    Satellite.get_elements none 0 (.ok none) = .ok ⟨none, none, 1⟩ ∧
    Satellite.get_elements (some [eA]) 7201 (.ok none) = .ok ⟨some [eA], some [eA], 1⟩ ∧
    render_bottom_positions [.ok (0, 0), .error .decayed] = .panic :=
  ⟨c3_external_failure_handling.1 (some [eA]),
   c3_external_failure_handling.2.1 0,
   c3_external_failure_handling.2.2.1 [eA] 7201 (by norm_num),
   c3_external_failure_handling.2.2.2.2 [.ok (0, 0)] [] .decayed⟩

/-- C6 (confirmed): for an object whose orbital period is 90 minutes the
trajectory loop `for minutes in 1..period.num_minutes()` queries the
propagator at exactly the integer-minute offsets 1..89 — 89 interior samples,
with the current-time offset 0 excluded. -/
theorem c6_trajectory_sample_minutes :
    ∀ o : Object, o.orbital_period_minutes = 90 →
      o.trajectory_sample_minutes = (List.range 89).map (fun k : ℕ => (1 : ℤ) + (k : ℤ)) ∧
      o.trajectory_sample_minutes.length = 89 ∧
      (∀ m : ℤ, m ∈ o.trajectory_sample_minutes ↔ 1 ≤ m ∧ m ≤ 89) ∧
      (0 : ℤ) ∉ o.trajectory_sample_minutes := by
  intro o h
  have h1 : o.trajectory_sample_minutes
      = (List.range 89).map (fun k : ℕ => (1 : ℤ) + (k : ℤ)) := by
    unfold Object.trajectory_sample_minutes
    rw [h]
    decide
  refine ⟨h1, ?_, ?_, ?_⟩ <;> rw [h1]
  · simp
  · intro m
    simp only [List.mem_map, List.mem_range]
    constructor
    · rintro ⟨k, hk, rfl⟩
      omega
    · rintro ⟨hm1, hm2⟩
      exact ⟨(m - 1).toNat, by omega, by omega⟩
  · simp only [List.mem_map, List.mem_range, not_exists]
    intro k
    omega

/-- C6 witness: the object built from `eA` (mean motion 16 rev/day) has a
90-minute period and 89 interior sample offsets. -/
theorem c6_trajectory_sample_minutes_witness :
    oA.orbital_period_minutes = 90 ∧ oA.trajectory_sample_minutes.length = 89 := by
  have hper : oA.orbital_period_minutes = 90 := by
    simp only [Object.orbital_period_minutes, Object.orbital_period_seconds,
      durationNumMinutes, rustCastI64, ratTrunc, oA]
    norm_num
    decide
  exact ⟨hper, (c6_trajectory_sample_minutes oA hper).2.1⟩

/-- C7 (confirmed): a consecutive sample pair that does not cross the
antimeridian but jumps at least 90° in latitude contributes no segment, and
the windows loop always continues with the remaining pairs (the embedding is
a total function; the live sampler in src/widgets/world_map.rs:92-95 uses
`continue`, not an assertion). -/
theorem c7_latitude_jump_drop :
    (∀ p1 p2 : ℚ × ℚ, |p1.1 - p2.1| < 180 → 90 ≤ |p1.2 - p2.2| →
        trajectory_pair_segments p1 p2 = []) ∧
    (∀ (p1 p2 : ℚ × ℚ) (rest : List (ℚ × ℚ)),
        render_trajectory (p1 :: p2 :: rest)
          = trajectory_pair_segments p1 p2 ++ render_trajectory (p2 :: rest)) := by
  constructor
  · intro p1 p2 hx hy
    unfold trajectory_pair_segments
    rw [if_neg (not_le.mpr hx), if_pos hy]
  · intro p1 p2 rest
    rfl

/-- C7 witness: a concrete 90° latitude jump is dropped while its neighbours
are kept. -/
theorem c7_latitude_jump_drop_witness :
    trajectory_pair_segments (0, 90) (0, 0) = [] ∧
    render_trajectory [(0, 90), (0, 0), (1, 1)]
      = trajectory_pair_segments (0, 90) (0, 0)
        ++ render_trajectory [(0, 0), (1, 1)] :=
  ⟨c7_latitude_jump_drop.1 (0, 90) (0, 0) (by norm_num) (by norm_num),
   c7_latitude_jump_drop.2 (0, 90) (0, 0) [(1, 1)]⟩

/-- For a positive modulus, Rust's `rem_euclid` on exact reals lands in
`[0, y)`: the truncating `%` gives a remainder in `(-y, y)`, and the negative
case is shifted up by `|y|`. -/
theorem rustRemEuclid_bounds (x y : ℝ) (hy : 0 < y) :
    0 ≤ rustRemEuclid x y ∧ rustRemEuclid x y < y := by
  have hy0 : y ≠ 0 := ne_of_gt hy
  have hr : rustFmod x y = y * (x / y - (realTrunc (x / y) : ℝ)) := by
    unfold rustFmod
    field_simp
  set t := x / y with ht
  by_cases h0 : 0 ≤ t
  · have htr : realTrunc t = ⌊t⌋ := if_pos h0
    have hfr : rustFmod x y = y * Int.fract t := by
      rw [hr, htr, Int.fract]
    have h1 : 0 ≤ rustFmod x y := by
      rw [hfr]
      exact mul_nonneg hy.le (Int.fract_nonneg t)
    have h2 : rustFmod x y < y := by
      rw [hfr]
      calc y * Int.fract t < y * 1 := by
            exact mul_lt_mul_of_pos_left (Int.fract_lt_one t) hy
        _ = y := mul_one y
    unfold rustRemEuclid
    rw [if_neg (not_lt.mpr h1)]
    exact ⟨h1, h2⟩
  · push_neg at h0
    have htr : realTrunc t = -⌊-t⌋ := if_neg (not_le.mpr h0)
    have hfr : rustFmod x y = -(y * Int.fract (-t)) := by
      rw [hr, htr, Int.fract]
      push_cast
      ring
    have h1 : rustFmod x y ≤ 0 := by
      rw [hfr]
      exact neg_nonpos.mpr (mul_nonneg hy.le (Int.fract_nonneg (-t)))
    have h2 : -y < rustFmod x y := by
      rw [hfr]
      have hlt : Int.fract (-t) < 1 := Int.fract_lt_one (-t)
      nlinarith
    unfold rustRemEuclid
    by_cases hneg : rustFmod x y < 0
    · rw [if_pos hneg, abs_of_pos hy]
      constructor <;> linarith
    · rw [if_neg hneg]
      push_neg at hneg
      exact ⟨hneg, lt_of_le_of_lt h1 hy⟩

/-- C8 (confirmed): for every real Julian-date input the GMST computation
returns a value in the half-open interval `[0, 2π)`. -/
theorem c8_gmst_range :
    ∀ julian_days : ℝ, 0 ≤ gmst_from_julian_days julian_days ∧
      gmst_from_julian_days julian_days < 2 * Real.pi := by
  intro jd
  unfold gmst_from_julian_days
  exact rustRemEuclid_bounds _ _ (by positivity)

/-- Rust's `min_by_key` fold keeps the initial accumulator when nothing is
strictly smaller, and otherwise lands on the first list position that is
strictly below the accumulator and minimal among all elements. -/
theorem rustMinByKeyFold_spec {α : Type} (key : α → ℤ) (xs : List α) : ∀ x : α,
    (rustMinByKeyFold key x xs = x ∧ ∀ y ∈ xs, key x ≤ key y) ∨
    (∃ n, ∃ hn : n < xs.length, rustMinByKeyFold key x xs = xs.get ⟨n, hn⟩ ∧
      key (xs.get ⟨n, hn⟩) < key x ∧
      (∀ y ∈ xs, key (xs.get ⟨n, hn⟩) ≤ key y) ∧
      (∀ m, ∀ hm : m < n, key (xs.get ⟨n, hn⟩) < key (xs.get ⟨m, Nat.lt_trans hm hn⟩))) := by
  induction xs with
  | nil =>
    intro x
    exact Or.inl ⟨rfl, by simp⟩
  | cons y ys ih =>
    intro x
    have hfold : rustMinByKeyFold key x (y :: ys)
        = rustMinByKeyFold key (if key y < key x then y else x) ys := rfl
    by_cases hxy : key y < key x
    · rw [hfold, if_pos hxy]
      rcases ih y with ⟨heq, hmin⟩ | ⟨n, hn, heq, hlt, hmin, hfirst⟩
      · refine Or.inr ⟨0, Nat.succ_pos _, heq, hxy, ?_, ?_⟩
        · intro z hz
          rcases List.mem_cons.mp hz with rfl | hz2
          · exact le_refl _
          · exact hmin z hz2
        · intro m hm
          exact absurd hm (Nat.not_lt_zero m)
      · refine Or.inr ⟨n + 1, Nat.succ_lt_succ hn, heq, lt_trans hlt hxy, ?_, ?_⟩
        · intro z hz
          rcases List.mem_cons.mp hz with rfl | hz2
          · exact le_of_lt hlt
          · exact hmin z hz2
        · intro m hm
          cases m with
          | zero => exact hlt
          | succ m2 => exact hfirst m2 (Nat.lt_of_succ_lt_succ hm)
    · rw [hfold, if_neg hxy]
      have hxy2 : key x ≤ key y := not_lt.mp hxy
      rcases ih x with ⟨heq, hmin⟩ | ⟨n, hn, heq, hlt, hmin, hfirst⟩
      · refine Or.inl ⟨heq, ?_⟩
        intro z hz
        rcases List.mem_cons.mp hz with rfl | hz2
        · exact hxy2
        · exact hmin z hz2
      · refine Or.inr ⟨n + 1, Nat.succ_lt_succ hn, heq, hlt, ?_, ?_⟩
        · intro z hz
          rcases List.mem_cons.mp hz with rfl | hz2
          · exact le_trans (le_of_lt hlt) hxy2
          · exact hmin z hz2
        · intro m hm
          cases m with
          | zero => exact lt_of_lt_of_le hlt hxy2
          | succ m2 => exact hfirst m2 (Nat.lt_of_succ_lt_succ hm)

/-- `min_by_key` on a nonempty list returns the first position whose key is
minimal: every element has a key no smaller, every earlier position a key
strictly larger. -/
theorem rustMinByKey_spec {α : Type} (key : α → ℤ) (l : List α) (r : α)
    (h : rustMinByKey key l = some r) :
    ∃ n, ∃ hn : n < l.length, r = l.get ⟨n, hn⟩ ∧
      (∀ y ∈ l, key r ≤ key y) ∧
      (∀ m, ∀ hm : m < n, key r < key (l.get ⟨m, Nat.lt_trans hm hn⟩)) := by
  cases l with
  | nil => simp [rustMinByKey] at h
  | cons x xs =>
    simp only [rustMinByKey, Option.some.injEq] at h
    subst h
    rcases rustMinByKeyFold_spec key xs x with ⟨heq, hmin⟩ | ⟨n, hn, heq, hlt, hmin, hfirst⟩
    · refine ⟨0, Nat.succ_pos _, heq, ?_, ?_⟩
      · intro z hz
        rw [heq]
        rcases List.mem_cons.mp hz with rfl | hz2
        · exact le_refl _
        · exact hmin z hz2
      · intro m hm
        exact absurd hm (Nat.not_lt_zero m)
    · refine ⟨n + 1, Nat.succ_lt_succ hn, heq, ?_, ?_⟩
      · intro z hz
        rw [heq]
        rcases List.mem_cons.mp hz with rfl | hz2
        · exact le_of_lt hlt
        · exact hmin z hz2
      · intro m hm
        rw [heq]
        cases m with
        | zero => exact hlt
        | succ m2 => exact hfirst m2 (Nat.lt_of_succ_lt_succ hm)

/-- `get_nearest_object` characterized: a returned index is in bounds, its
key is minimal, and every earlier index has a strictly larger key. -/
theorem get_nearest_object_spec (states : List (ℚ × ℚ)) (lon lat : ℚ) (i : ℕ)
    (h : get_nearest_object states lon lat = some i) :
    ∃ hi : i < states.length,
      (∀ j, ∀ hj : j < states.length,
          nearestKey lon lat (states.get ⟨i, hi⟩)
            ≤ nearestKey lon lat (states.get ⟨j, hj⟩)) ∧
      (∀ m, ∀ hm : m < i,
          nearestKey lon lat (states.get ⟨i, hi⟩)
            < nearestKey lon lat (states.get ⟨m, Nat.lt_trans hm hi⟩)) := by
  unfold get_nearest_object at h
  rcases hmk : rustMinByKey (fun p => nearestKey lon lat p.2) states.enum with _ | r
  · rw [hmk] at h
    simp at h
  · rw [hmk] at h
    simp only [Option.map_some', Option.some.injEq] at h
    obtain ⟨n, hn, hr, hmin, hfirst⟩ := rustMinByKey_spec _ _ _ hmk
    have hlen : states.enum.length = states.length := List.enum_length
    have hn2 : n < states.length := hlen ▸ hn
    have hge : states.enum.get ⟨n, hn⟩ = (n, states.get ⟨n, hn2⟩) := by
      simp [List.get_eq_getElem, List.getElem_enum]
    have hi : i = n := by rw [← h, hr, hge]
    subst hi
    refine ⟨hn2, ?_, ?_⟩
    · intro j hj
      have hj2 : j < states.enum.length := hlen ▸ hj
      have hgj : states.enum.get ⟨j, hj2⟩ = (j, states.get ⟨j, hj⟩) := by
        simp [List.get_eq_getElem, List.getElem_enum]
      have hz := hmin (states.enum.get ⟨j, hj2⟩) (List.get_mem _ _ hj2)
      rw [hr, hge, hgj] at hz
      simpa using hz
    · intro m hm
      have hmn : m < states.enum.length := hlen ▸ Nat.lt_trans hm hn2
      have hgm : states.enum.get ⟨m, hmn⟩ = (m, states.get ⟨m, Nat.lt_trans hm hn2⟩) := by
        simp [List.get_eq_getElem, List.getElem_enum]
      have hz := hfirst m hm
      rw [hr, hge, hgm] at hz
      simpa using hz

/-- A returned nearest-object index is a valid index into the state list. -/
theorem get_nearest_object_lt (states : List (ℚ × ℚ)) (lon lat : ℚ) (i : ℕ)
    (h : get_nearest_object states lon lat = some i) : i < states.length := by
  obtain ⟨hi, -⟩ := get_nearest_object_spec states lon lat i h
  exact hi

/-- C4, counterexample.  In `[c4A, c4B, c4B]` with the query at the origin,
the minimal exact squared distance (1/1000) is attained by the two objects at
indices 1 and 2, yet the lookup returns index 0: object `c4A` is 0.0003
farther but its quantized key (⌊1000·d²⌋ truncated to i32) collapses to the
same value 1, and `min_by_key` keeps the earliest equal key. -/
theorem c4_nearest_tie_counterexample :
    sqDist 0 0 c4B < sqDist 0 0 c4A ∧
    nearestKey 0 0 c4A = 1 ∧ nearestKey 0 0 c4B = 1 ∧
    get_nearest_object [c4A, c4B, c4B] 0 0 = some 0 := by
  have hA : nearestKey 0 0 c4A = 1 := by
    norm_num [nearestKey, rustCastI32, ratTrunc, c4A]
  have hB : nearestKey 0 0 c4B = 1 := by
    norm_num [nearestKey, rustCastI32, ratTrunc, c4B]
  refine ⟨?_, hA, hB, ?_⟩
  · norm_num [sqDist, c4A, c4B]
  · simp [get_nearest_object, rustMinByKey, rustMinByKeyFold, List.enum,
      List.enumFrom, List.foldl, hA, hB]

/-- C4 (amended): the nearest-object lookup returns nothing exactly when the
state list is empty and index 0 for every single-object list; in general it
returns the first index whose quantized integer key (squared degree distance
× 1000, truncated to i32) is minimal — so ties are broken in stable catalog
order on the *quantized key*, and an exact-distance minimiser can lose to an
earlier object whose squared distance lies in the same 0.001 quantization
cell. -/
theorem c4_nearest_object_lookup :
    (∀ lon lat : ℚ, get_nearest_object [] lon lat = none) ∧
    (∀ (states : List (ℚ × ℚ)) (lon lat : ℚ), states ≠ [] →
        ∃ i, get_nearest_object states lon lat = some i) ∧
    (∀ (s : ℚ × ℚ) (lon lat : ℚ), get_nearest_object [s] lon lat = some 0) ∧
    (∀ (states : List (ℚ × ℚ)) (lon lat : ℚ) (i : ℕ),
        get_nearest_object states lon lat = some i →
        ∃ hi : i < states.length,
          (∀ j, ∀ hj : j < states.length,
              nearestKey lon lat (states.get ⟨i, hi⟩)
                ≤ nearestKey lon lat (states.get ⟨j, hj⟩)) ∧
          (∀ m, ∀ hm : m < i,
              nearestKey lon lat (states.get ⟨i, hi⟩)
                < nearestKey lon lat (states.get ⟨m, Nat.lt_trans hm hi⟩))) := by
  refine ⟨fun _ _ => rfl, ?_, fun _ _ _ => rfl, get_nearest_object_spec⟩
  intro states lon lat hne
  cases states with
  | nil => exact absurd rfl hne
  | cons s ss => exact ⟨_, rfl⟩

/-- Evaluation of the nearest-object lookup on the C4 counterexample list. -/
theorem get_nearest_c4_eval : get_nearest_object [c4A, c4B, c4B] 0 0 = some 0 := by
  have hA : nearestKey 0 0 c4A = 1 := by
    norm_num [nearestKey, rustCastI32, ratTrunc, c4A]
  have hB : nearestKey 0 0 c4B = 1 := by
    norm_num [nearestKey, rustCastI32, ratTrunc, c4B]
  simp [get_nearest_object, rustMinByKey, rustMinByKeyFold, List.enum,
    List.enumFrom, List.foldl, hA, hB]

/-- C4 witness: the amended lookup evaluated at concrete inputs. -/
theorem c4_nearest_object_lookup_witness :
    get_nearest_object [] 5 5 = none ∧
    (∃ i, get_nearest_object [c4A, c4B] 0 0 = some i) ∧
    get_nearest_object [c4B] 7 8 = some 0 ∧
    0 < [c4A, c4B, c4B].length :=
  ⟨c4_nearest_object_lookup.1 5 5,
   c4_nearest_object_lookup.2.1 [c4A, c4B] 0 0 (by simp),
   c4_nearest_object_lookup.2.2.1 c4B 7 8,
   by
     obtain ⟨hi, -⟩ := c4_nearest_object_lookup.2.2.2 [c4A, c4B, c4B] 0 0 0
       get_nearest_c4_eval
     exact Nat.lt_of_lt_of_le hi (by simp)⟩

/-- C10, counterexample.  Two objects whose squared distances to the query
differ by 0.000225 < 0.001 are *not* treated as tied: their distances fall in
adjacent quantization cells, the keys differ (0 vs 1), and the farther-listed
`c10A` wins even from the second position. -/
theorem c10_quantization_counterexample :
    |sqDist 0 0 c10A - sqDist 0 0 c10B| < 1 / 1000 ∧
    nearestKey 0 0 c10A = 0 ∧ nearestKey 0 0 c10B = 1 ∧
    get_nearest_object [c10B, c10A] 0 0 = some 1 := by
  have hA : nearestKey 0 0 c10A = 0 := by
    norm_num [nearestKey, rustCastI32, ratTrunc, c10A]
  have hB : nearestKey 0 0 c10B = 1 := by
    norm_num [nearestKey, rustCastI32, ratTrunc, c10B]
  refine ⟨?_, hA, hB, ?_⟩
  · rw [abs_lt]
    constructor <;> norm_num [sqDist, c10A, c10B]
  · simp [get_nearest_object, rustMinByKey, rustMinByKeyFold, List.enum,
      List.enumFrom, List.foldl, hA, hB]

/-- C10 (amended): comparison happens on `⌊1000·d²⌋` truncated to i32, so two
objects are treated as exactly tied iff their quantized keys coincide — in
particular whenever their squared distances lie in the same 0.001-wide cell
(equal truncations); distances differing by less than 0.001 can still fall in
adjacent cells and be distinguished.  For in-range coordinates the scaled key
is at most 162 000 000, well inside i32, so the saturating cast never
clamps. -/
theorem c10_quantized_key :
    (∀ (lon lat : ℚ) (s t : ℚ × ℚ),
        ratTrunc (sqDist lon lat s * 1000) = ratTrunc (sqDist lon lat t * 1000) →
        nearestKey lon lat s = nearestKey lon lat t) ∧
    (∀ (lon lat : ℚ) (s t : ℚ × ℚ), nearestKey lon lat s = nearestKey lon lat t →
        get_nearest_object [s, t] lon lat = some 0 ∧
        get_nearest_object [t, s] lon lat = some 0) ∧
    (∀ (lon lat : ℚ) (s : ℚ × ℚ),
        -180 ≤ s.1 → s.1 ≤ 180 → -90 ≤ s.2 → s.2 ≤ 90 →
        -180 ≤ lon → lon ≤ 180 → -90 ≤ lat → lat ≤ 90 →
        nearestKey lon lat s = ratTrunc (sqDist lon lat s * 1000) ∧
        0 ≤ nearestKey lon lat s ∧ nearestKey lon lat s ≤ 162000000) := by
  refine ⟨?_, ?_, ?_⟩
  · intro lon lat s t h
    have hs : nearestKey lon lat s = rustCastI32 (sqDist lon lat s * 1000) := rfl
    have ht : nearestKey lon lat t = rustCastI32 (sqDist lon lat t * 1000) := rfl
    rw [hs, ht]
    unfold rustCastI32
    rw [h]
  · intro lon lat s t h
    constructor
    · simp [get_nearest_object, rustMinByKey, rustMinByKeyFold, List.enum,
        List.enumFrom, List.foldl, h]
    · simp [get_nearest_object, rustMinByKey, rustMinByKeyFold, List.enum,
        List.enumFrom, List.foldl, h]
  · intro lon lat s h1 h2 h3 h4 h5 h6 h7 h8
    have hdx2 : (s.1 - lon) * (s.1 - lon) ≤ 129600 := by nlinarith
    have hdy2 : (s.2 - lat) * (s.2 - lat) ≤ 32400 := by nlinarith
    have hv0 : 0 ≤ sqDist lon lat s * 1000 := by
      unfold sqDist
      nlinarith [mul_self_nonneg (s.1 - lon), mul_self_nonneg (s.2 - lat)]
    have hvle : sqDist lon lat s * 1000 ≤ 162000000 := by
      unfold sqDist
      nlinarith
    have htr : ratTrunc (sqDist lon lat s * 1000) = ⌊sqDist lon lat s * 1000⌋ := by
      unfold ratTrunc
      rw [if_pos hv0]
    have htr0 : 0 ≤ ratTrunc (sqDist lon lat s * 1000) := by
      rw [htr]
      exact Int.floor_nonneg.mpr hv0
    have htrle : ratTrunc (sqDist lon lat s * 1000) ≤ 162000000 := by
      rw [htr]
      calc ⌊sqDist lon lat s * 1000⌋ ≤ ⌊(162000000 : ℚ)⌋ := Int.floor_le_floor hvle
        _ = 162000000 := by norm_num
    have hkey : nearestKey lon lat s = rustCastI32 (sqDist lon lat s * 1000) := rfl
    have hcast : rustCastI32 (sqDist lon lat s * 1000)
        = ratTrunc (sqDist lon lat s * 1000) := by
      unfold rustCastI32
      rw [min_eq_right (le_trans htrle (by norm_num)),
        max_eq_right (le_trans (by norm_num) htr0)]
    refine ⟨hkey.trans hcast, ?_, ?_⟩
    · rw [hkey, hcast]
      exact htr0
    · rw [hkey, hcast]
      exact htrle

/-- C10 witness: the amended statement evaluated at concrete inputs. -/
theorem c10_quantized_key_witness :
    nearestKey 0 0 c4A = nearestKey 0 0 c4B ∧
    get_nearest_object [c4A, c4B] 0 0 = some 0 ∧
    get_nearest_object [c4B, c4A] 0 0 = some 0 ∧
    nearestKey 0 0 (100, 45) = ratTrunc (sqDist 0 0 (100, 45) * 1000) ∧
    0 ≤ nearestKey 0 0 (100, 45) ∧ nearestKey 0 0 (100, 45) ≤ 162000000 := by
  have hAB : ratTrunc (sqDist 0 0 c4A * 1000) = ratTrunc (sqDist 0 0 c4B * 1000) := by
    norm_num [ratTrunc, sqDist, c4A, c4B]
  have hk := c10_quantized_key.1 0 0 c4A c4B hAB
  have hpair := c10_quantized_key.2.1 0 0 c4A c4B hk
  have hrange := c10_quantized_key.2.2 0 0 (100, 45)
    (by norm_num) (by norm_num) (by norm_num) (by norm_num)
    (by norm_num) (by norm_num) (by norm_num) (by norm_num)
  exact ⟨hk, hpair.1, hpair.2, hrange.1, hrange.2.1, hrange.2.2⟩

/-- Longitude spans of the two clamped segments of an antimeridian split:
for in-range longitudes each span is at most 180°, except for the single
degenerate pair (0°, −180°), where the second segment runs from +180° to
−180°. -/
theorem trajectory_split_spans (p1 p2 : ℚ × ℚ)
    (h1 : -180 ≤ p1.1) (h2 : p1.1 ≤ 180) (h3 : -180 ≤ p2.1) (h4 : p2.1 ≤ 180)
    (hsplit : 180 ≤ |p1.1 - p2.1|) (hcorner : ¬(p1.1 = 0 ∧ p2.1 = -180)) :
    ∀ s ∈ trajectory_pair_segments p1 p2, s.lonSpan ≤ 180 := by
  intro s hs
  unfold trajectory_pair_segments at hs
  rw [if_pos hsplit] at hs
  rcases le_abs.mp hsplit with hd | hd
  · -- 180 ≤ x1 - x2
    by_cases hx1 : 0 < p1.1
    · rw [if_pos hx1] at hs
      rcases List.mem_cons.mp hs with rfl | hs2
      · unfold Segment.lonSpan
        rw [abs_le]
        constructor <;> simp <;> linarith
      · rcases List.mem_cons.mp hs2 with rfl | hs3
        · unfold Segment.lonSpan
          rw [abs_le]
          constructor <;> simp <;> linarith
        · exact absurd hs3 (List.not_mem_nil s)
    · -- x1 ≤ 0 and 180 ≤ x1 - x2 forces the excluded corner (0, -180)
      have hx1le : p1.1 ≤ 0 := not_lt.mp hx1
      have hb : p2.1 = -180 := le_antisymm (by linarith) h3
      have ha : p1.1 = 0 := le_antisymm hx1le (by linarith)
      exact absurd ⟨ha, hb⟩ hcorner
  · -- 180 ≤ x2 - x1
    have hneg : ¬ 0 < p1.1 := by
      intro hx1
      linarith
    rw [if_neg hneg] at hs
    rcases List.mem_cons.mp hs with rfl | hs2
    · unfold Segment.lonSpan
      rw [abs_le]
      constructor <;> simp <;> linarith
    · rcases List.mem_cons.mp hs2 with rfl | hs3
      · unfold Segment.lonSpan
        rw [abs_le]
        constructor <;> simp <;> linarith
      · exact absurd hs3 (List.not_mem_nil s)

/-- A non-crossing pair emits at most its direct segment, whose longitude
span is its own longitude difference, below 180°. -/
theorem trajectory_direct_spans (p1 p2 : ℚ × ℚ) (h : |p1.1 - p2.1| < 180) :
    ∀ s ∈ trajectory_pair_segments p1 p2, s.lonSpan < 180 := by
  intro s hs
  unfold trajectory_pair_segments at hs
  rw [if_neg (not_le.mpr h)] at hs
  by_cases hy : 90 ≤ |p1.2 - p2.2|
  · rw [if_pos hy] at hs
    exact absurd hs (List.not_mem_nil s)
  · rw [if_neg hy] at hs
    rcases List.mem_cons.mp hs with rfl | hs2
    · exact h
    · exact absurd hs2 (List.not_mem_nil s)

/-- Every segment the windows loop emits spans at most 180° of longitude,
for in-range sample longitudes avoiding consecutive (0°, −180°) pairs. -/
theorem render_trajectory_spans :
    ∀ points : List (ℚ × ℚ), (∀ p ∈ points, -180 ≤ p.1 ∧ p.1 ≤ 180) →
    points.Chain' (fun p q => ¬(p.1 = 0 ∧ q.1 = -180)) →
    ∀ s ∈ render_trajectory points, s.lonSpan ≤ 180 := by
  intro points
  induction points with
  | nil =>
    intro _ _ s hs
    simp [render_trajectory] at hs
  | cons p1 rest ih =>
    intro hrange hchain s hs
    cases rest with
    | nil => simp [render_trajectory] at hs
    | cons p2 rest2 =>
      have hsplit2 : render_trajectory (p1 :: p2 :: rest2)
          = trajectory_pair_segments p1 p2 ++ render_trajectory (p2 :: rest2) := rfl
      rw [hsplit2] at hs
      rcases List.mem_append.mp hs with hmem | hmem
      · by_cases hcross : 180 ≤ |p1.1 - p2.1|
        · have hp1 := hrange p1 (by simp)
          have hp2 := hrange p2 (by simp)
          exact trajectory_split_spans p1 p2 hp1.1 hp1.2 hp2.1 hp2.2 hcross
            (List.chain'_cons.mp hchain).1 s hmem
        · exact le_of_lt (trajectory_direct_spans p1 p2 (not_le.mp hcross) s hmem)
      · exact ih (fun p hp => hrange p (List.mem_cons_of_mem p1 hp))
          (List.chain'_cons.mp hchain).2 s hmem

/-- C5, counterexample.  The pair (0°, 180°) differs by exactly 180° and is
split, but its first clamped segment spans exactly 180° — not "less than
180°" as claimed; and the pair (0°, −180°) even yields a second segment from
+180° to −180°, spanning 360°, violating "no more than 180°" as well. -/
theorem c5_antimeridian_counterexample :
    (180 : ℚ) ≤ |(0 : ℚ) - 180| ∧
    trajectory_pair_segments (0, 0) (180, 0) = [⟨0, 0, -180, 0⟩, ⟨180, 0, 180, 0⟩] ∧
    Segment.lonSpan ⟨0, 0, -180, 0⟩ = 180 ∧
    ¬ Segment.lonSpan ⟨0, 0, -180, 0⟩ < 180 ∧
    trajectory_pair_segments (0, 0) (-180, 0) = [⟨0, 0, -180, 0⟩, ⟨180, 0, -180, 0⟩] ∧
    Segment.lonSpan ⟨180, 0, -180, 0⟩ = 360 := by
  refine ⟨by norm_num, ?_, ?_, ?_, ?_, ?_⟩
  · norm_num [trajectory_pair_segments]
  · norm_num [Segment.lonSpan]
  · norm_num [Segment.lonSpan]
  · norm_num [trajectory_pair_segments]
  · norm_num [Segment.lonSpan]

/-- C5 (amended): an antimeridian-crossing pair is split into two segments
clamped at the edge picked by the sign of the first longitude; for in-range
longitudes each clamped segment spans at most 180° (rather than strictly
less), except for the degenerate pair (0°, −180°), whose second segment spans
360°; non-crossing pairs only ever emit segments spanning less than 180°, so
under the same proviso every emitted segment spans at most 180°. -/
theorem c5_antimeridian_split :
    (∀ p1 p2 : ℚ × ℚ, 180 ≤ |p1.1 - p2.1| →
        trajectory_pair_segments p1 p2 =
          [⟨p1.1, p1.2, if 0 < p1.1 then 180 else -180, p2.2⟩,
           ⟨-(if 0 < p1.1 then (180 : ℚ) else -180), p1.2, p2.1, p2.2⟩]) ∧
    (∀ p1 p2 : ℚ × ℚ, -180 ≤ p1.1 → p1.1 ≤ 180 → -180 ≤ p2.1 → p2.1 ≤ 180 →
        180 ≤ |p1.1 - p2.1| → ¬(p1.1 = 0 ∧ p2.1 = -180) →
        ∀ s ∈ trajectory_pair_segments p1 p2, s.lonSpan ≤ 180) ∧
    (∀ p1 p2 : ℚ × ℚ, |p1.1 - p2.1| < 180 →
        ∀ s ∈ trajectory_pair_segments p1 p2, s.lonSpan < 180) ∧
    (∀ points : List (ℚ × ℚ), (∀ p ∈ points, -180 ≤ p.1 ∧ p.1 ≤ 180) →
        points.Chain' (fun p q => ¬(p.1 = 0 ∧ q.1 = -180)) →
        ∀ s ∈ render_trajectory points, s.lonSpan ≤ 180) := by
  refine ⟨?_, trajectory_split_spans, trajectory_direct_spans, render_trajectory_spans⟩
  intro p1 p2 h
  unfold trajectory_pair_segments
  rw [if_pos h]

/-- C5 witness: the spec's own scenario, longitudes 179.9° and −179.8°: the
pair is split into two clamped segments with spans 0.1° and 0.2°. -/
theorem c5_antimeridian_split_witness :
    trajectory_pair_segments (1799/10, 5) (-1798/10, 6)
      = [⟨1799/10, 5, 180, 6⟩, ⟨-180, 5, -1798/10, 6⟩] ∧
    Segment.lonSpan ⟨1799/10, 5, 180, 6⟩ ≤ 180 ∧
    Segment.lonSpan ⟨-180, 5, -1798/10, 6⟩ ≤ 180 := by
  have hsplit : (180 : ℚ) ≤ |(1799/10 : ℚ) - (-1798/10)| := by
    have hv : (1799/10 : ℚ) - (-1798/10) = 3597/10 := by norm_num
    rw [hv, abs_of_pos (by norm_num)]
    norm_num
  have he := c5_antimeridian_split.1 (1799/10, 5) (-1798/10, 6) hsplit
  have hxe : (0 : ℚ) < 1799/10 := by norm_num
  have he2 : trajectory_pair_segments (1799/10, 5) (-1798/10, 6)
      = [⟨1799/10, 5, 180, 6⟩, ⟨-180, 5, -1798/10, 6⟩] := by
    rw [he]
    norm_num
  have hmem1 : (⟨1799/10, 5, 180, 6⟩ : Segment)
      ∈ trajectory_pair_segments (1799/10, 5) (-1798/10, 6) := by
    rw [he2]
    simp
  have hmem2 : (⟨-180, 5, -1798/10, 6⟩ : Segment)
      ∈ trajectory_pair_segments (1799/10, 5) (-1798/10, 6) := by
    rw [he2]
    simp
  refine ⟨he2, ?_, ?_⟩
  · exact c5_antimeridian_split.2.1 (1799/10, 5) (-1798/10, 6)
      (by norm_num) (by norm_num) (by norm_num) (by norm_num) hsplit
      (by norm_num) _ hmem1
  · exact c5_antimeridian_split.2.1 (1799/10, 5) (-1798/10, 6)
      (by norm_num) (by norm_num) (by norm_num) (by norm_num) hsplit
      (by norm_num) _ hmem2

/-- `Object::from_elements` on the concrete record `eA` builds `oA`. -/
theorem from_elements_eA : Object.from_elements eA = .ok oA := by
  simp only [Object.from_elements, Constants.from_elements, eA]
  norm_num
  rfl

/-- `Object::from_elements` on the concrete record `eB` builds `oB`. -/
theorem from_elements_eB : Object.from_elements eB = .ok oB := by
  simp only [Object.from_elements, Constants.from_elements, eB]
  norm_num
  rfl

/-- Toggling the single group on, with a two-record fetch, yields `c9_t1`. -/
theorem c9_toggle_eval :
    satellites_toggle_click c9_s0 0 [some [eA, eB]] = .ok c9_t1 := by
  simp [satellites_toggle_click, c9_s0, update_objects, objects_from_elements,
    from_elements_eA, from_elements_eB, c9_t1]

/-- The nearest-object lookup picks the second state for a click at
(100°, 100°). -/
theorem c9_nearest_eval :
    get_nearest_object [((10 : ℚ), (20 : ℚ)), (100, 100)] 100 100 = some 1 := by
  have h0 : nearestKey 100 100 ((10 : ℚ), (20 : ℚ)) = 14500000 := by
    norm_num [nearestKey, rustCastI32, ratTrunc]
  have h1 : nearestKey 100 100 ((100 : ℚ), (100 : ℚ)) = 0 := by
    norm_num [nearestKey, rustCastI32, ratTrunc]
  simp [get_nearest_object, rustMinByKey, rustMinByKeyFold, List.enum,
    List.enumFrom, List.foldl, h0, h1]

/-- The left click on the map at (100°, 100°) selects and hovers index 1. -/
theorem c9_click_eval :
    world_map_left_click c9_t1 100 100 c9_predict = c9_t3 := by
  have hmap : c9_t1.objects.map c9_predict = [((10 : ℚ), (20 : ℚ)), (100, 100)] := by
    simp [c9_t1, c9_predict, oA, oB]
  unfold world_map_left_click
  rw [hmap, c9_nearest_eval]
  simp [c9_t1, c9_t3]

/-- The periodic refresh with a one-record fetch swaps in a single-object
collection while leaving selection and hover at index 1. -/
theorem c9_refresh_shrink_eval :
    refresh_objects c9_t3 [some [eA]] = .ok c9_bad := by
  simp [refresh_objects, c9_t3, c9_bad, update_objects, objects_from_elements,
    from_elements_eA]

/-- A refresh whose fetch still returns both records keeps `c9_t3`. -/
theorem c9_refresh_keep_eval :
    refresh_objects c9_t3 [some [eA, eB]] = .ok c9_t3 := by
  simp [refresh_objects, c9_t3, update_objects, objects_from_elements,
    from_elements_eA, from_elements_eB]

/-- C9, counterexample (spec-modelled refresh).  From the initial state:
toggle the group on (two objects), left-click the second object (selection
and hover hold index 1), then run the periodic refresh whose fetch returns
only one record.  The rebuilt collection has length 1 while the stored
indices are still 1, so the invariant fails and the world-map top layer
indexes the objects vector out of bounds. -/
theorem c9_index_invariant_counterexample :
    c9_run = .ok c9_bad ∧
    c9_bad.selected_object = some 1 ∧
    c9_bad.objects.length = 1 ∧
    ¬ index_invariant c9_bad ∧
    render_top_layer_lookup c9_bad = .panic := by
  refine ⟨?_, rfl, rfl, ?_, ?_⟩
  · unfold c9_run
    rw [c9_toggle_eval]
    show refresh_objects (world_map_left_click c9_t1 100 100 c9_predict) [some [eA]]
      = .ok c9_bad
    rw [c9_click_eval, c9_refresh_shrink_eval]
  · intro h
    obtain ⟨h1, -⟩ := h
    have h2 := h1 1 rfl
    simp [c9_bad] at h2
  · rfl

/-- C9 (amended): toggling a satellite group resets selection and hover to
`None` before rebuilding, and pointer events only ever store in-bounds
indices produced by the nearest-object lookup, so those operations preserve
the index invariant; the spec-modelled periodic refresh, however, swaps the
collection while preserving the stored indices, so it maintains the
invariant only when the rebuilt collection is at least as long as the old
one.  Under the invariant, rendering never panics on the index lookup. -/
theorem c9_index_invariant :
    (∀ (s : AppState) (idx : ℕ) (fetches : List (Option (List Elements))) (t : AppState),
        satellites_toggle_click s idx fetches = .ok t → index_invariant t) ∧
    (∀ (s : AppState) (lon lat : ℚ) (pr : Object → ℚ × ℚ),
        index_invariant (world_map_left_click s lon lat pr)) ∧
    (∀ (s : AppState) (lon lat : ℚ) (pr : Object → ℚ × ℚ), index_invariant s →
        index_invariant (world_map_right_click s lon lat pr)) ∧
    (∀ s : AppState, index_invariant s → index_invariant (world_map_mouse_outside s)) ∧
    (∀ (s : AppState) (fetches : List (Option (List Elements))) (t : AppState),
        index_invariant s → refresh_objects s fetches = .ok t →
        s.objects.length ≤ t.objects.length → index_invariant t) ∧
    (∀ s : AppState, index_invariant s → render_top_layer_lookup s ≠ .panic) := by
  refine ⟨?_, ?_, ?_, ?_, ?_, ?_⟩
  · intro s idx f t h
    unfold satellites_toggle_click at h
    split at h
    · simp only [] at h
      split at h
      · exact absurd h (by simp)
      · injection h with h2
        subst h2
        exact ⟨fun i hi => by simp at hi, fun i hi => by simp at hi⟩
    · exact absurd h (by simp)
  · intro s lon lat pr
    constructor
    · intro i hi
      have hi2 : get_nearest_object (s.objects.map pr) lon lat = some i := hi
      have hl := get_nearest_object_lt (s.objects.map pr) lon lat i hi2
      simpa using hl
    · intro i hi
      have hi2 : get_nearest_object (s.objects.map pr) lon lat = some i := hi
      have hl := get_nearest_object_lt (s.objects.map pr) lon lat i hi2
      simpa using hl
  · intro s lon lat pr _
    constructor
    · intro i hi
      simp [world_map_right_click] at hi
    · intro i hi
      have hi2 : get_nearest_object (s.objects.map pr) lon lat = some i := hi
      have hl := get_nearest_object_lt (s.objects.map pr) lon lat i hi2
      simpa using hl
  · intro s hinv
    constructor
    · intro i hi
      exact hinv.1 i hi
    · intro i hi
      simp [world_map_mouse_outside] at hi
  · intro s f t hinv h hlen
    unfold refresh_objects at h
    split at h
    · exact absurd h (by simp)
    · injection h with h2
      subst h2
      constructor
      · intro i hi
        exact lt_of_lt_of_le (hinv.1 i hi) hlen
      · intro i hi
        exact lt_of_lt_of_le (hinv.2 i hi) hlen
  · intro s hinv h
    unfold render_top_layer_lookup at h
    split at h
    next i heq =>
      rw [dif_pos (hinv.1 i heq)] at h
      exact RustOutcome.noConfusion h
    next heq =>
      split at h
      next i hhov =>
        rw [dif_pos (hinv.2 i hhov)] at h
        exact RustOutcome.noConfusion h
      next hhov => exact RustOutcome.noConfusion h

/-- C9 witness: the amended preservation properties exercised on the
concrete trace states. -/
theorem c9_index_invariant_witness :
    index_invariant c9_t1 ∧
    index_invariant (world_map_left_click c9_t1 100 100 c9_predict) ∧
    index_invariant (world_map_right_click c9_t1 100 100 c9_predict) ∧
    index_invariant (world_map_mouse_outside c9_t1) ∧
    index_invariant c9_t3 ∧
    render_top_layer_lookup c9_t3 ≠ .panic := by
  have hinv3 : index_invariant c9_t3 := by
    constructor
    · intro i hi
      simp only [c9_t3, Option.some.injEq] at hi
      simp [c9_t3, ← hi]
    · intro i hi
      simp only [c9_t3, Option.some.injEq] at hi
      simp [c9_t3, ← hi]
  have ht1 : index_invariant c9_t1 :=
    c9_index_invariant.1 c9_s0 0 [some [eA, eB]] c9_t1 c9_toggle_eval
  refine ⟨ht1, ?_, ?_, ?_, ?_, ?_⟩
  · exact c9_index_invariant.2.1 c9_t1 100 100 c9_predict
  · exact c9_index_invariant.2.2.1 c9_t1 100 100 c9_predict ht1
  · exact c9_index_invariant.2.2.2.1 c9_t1 ht1
  · exact c9_index_invariant.2.2.2.2.1 c9_t3 [some [eA, eB]] c9_t3 hinv3
      c9_refresh_keep_eval (by simp [c9_t3])
  · exact c9_index_invariant.2.2.2.2.2 c9_t3 hinv3
